import Mathlib

/-!
Verification of the `frame-calculator` repository: a shallow embedding of
`frame_calculator/line.py` (Timoshenko beam stiffness matrices) and
`frame_calculator/section.py` (cross-sectional coefficients), together with
theorems settling the specification claims about them.

Scalars are embedded as elements of a linear ordered field (instantiated at
`ℚ` for concrete evaluation and at `ℝ` where `sqrt`/`cos`/`sin` appear),
abstracting from IEEE-754 rounding.  Python float division raises
`ZeroDivisionError`; Lean's total `/` returns `0` instead, so a `Checked`
variant returning `Option` records exactly which inputs reach a zero divisor
in the source's evaluation order.

Each local variable of `stiffness_local` in line.py (`phiY`, `a`, `kz11`, ...)
is lifted to a top-level definition with the same name and the same formula;
`stiffness_local` then assembles the four yielded 6x6 tuples from them after
applying the two defaulting statements `if Ay == 0: Ay = Ax` and
`if Az == 0: Az = Ax`.
-/

open Matrix

namespace FrameCalculator


variable {K : Type} [LinearOrderedField K] [DecidableEq K]

/-- The four 6x6 partition blocks, named after their position in the
partitioned 12x12 matrix and held in the order the source generator yields
them: M11, M12, M21, M22. -/
structure Blocks (K : Type) where
  M11 : Matrix (Fin 6) (Fin 6) K
  M12 : Matrix (Fin 6) (Fin 6) K
  M21 : Matrix (Fin 6) (Fin 6) K
  M22 : Matrix (Fin 6) (Fin 6) K

/-- The 12x12 matrix assembled from four 6x6 blocks, laid out as
`[[M11, M12], [M21, M22]]` and indexed by `Fin 6 ⊕ Fin 6`. -/
def assemble12 {K : Type} (B : Blocks K) :
    Matrix (Fin 6 ⊕ Fin 6) (Fin 6 ⊕ Fin 6) K :=
  Matrix.fromBlocks B.M11 B.M12 B.M21 B.M22

namespace Line

/-- `phiY = 12. * Iz / G / Ay / L / L * E if Iz != 0 else 0.` (line.py),
with `Ay` the already-defaulted shear area. -/
def phiY (L E G Ay Iz : K) : K :=
  if Iz ≠ 0 then 12 * Iz / G / Ay / L / L * E else 0

/-- `phiZ = 12. * Iy / G / Az / L / L * E if Iy != 0 else 0.` (line.py). -/
def phiZ (L E G Az Iy : K) : K :=
  if Iy ≠ 0 then 12 * Iy / G / Az / L / L * E else 0

/-- `a = float(Ax) / L * E` (line.py): the axial stiffness coefficient. -/
def a (L E Ax : K) : K := Ax / L * E

/-- `s = float(J) / L * G` (line.py): the torsional stiffness coefficient. -/
def s (L G J : K) : K := J / L * G

/-- `kzPre = Iz / (phiY + 1) / L / L * E` (line.py). -/
def kzPre (L E G Ay Iz : K) : K :=
  Iz / (phiY L E G Ay Iz + 1) / L / L * E

/-- `kyPre = Iy / (phiZ + 1) / L / L * E` (line.py). -/
def kyPre (L E G Az Iy : K) : K :=
  Iy / (phiZ L E G Az Iy + 1) / L / L * E

/-- `kz11 = kzPre * 12` (line.py). -/
def kz11 (L E G Ay Iz : K) : K := kzPre L E G Ay Iz * 12

/-- `kz12 = L * kzPre * 6` (line.py). -/
def kz12 (L E G Ay Iz : K) : K := L * kzPre L E G Ay Iz * 6

/-- `kz13 = -kz11` (line.py). -/
def kz13 (L E G Ay Iz : K) : K := -kz11 L E G Ay Iz

/-- `kz14 = kz12` (line.py). -/
def kz14 (L E G Ay Iz : K) : K := kz12 L E G Ay Iz

/-- `kz22 = (phiY + 4) * kzPre * L * L` (line.py). -/
def kz22 (L E G Ay Iz : K) : K :=
  (phiY L E G Ay Iz + 4) * kzPre L E G Ay Iz * L * L

/-- `kz23 = -kz12` (line.py). -/
def kz23 (L E G Ay Iz : K) : K := -kz12 L E G Ay Iz

/-- `kz24 = (2 - phiY) * kzPre * L * L` (line.py). -/
def kz24 (L E G Ay Iz : K) : K :=
  (2 - phiY L E G Ay Iz) * kzPre L E G Ay Iz * L * L

/-- `kz33 = kz11` (line.py). -/
def kz33 (L E G Ay Iz : K) : K := kz11 L E G Ay Iz

/-- `kz34 = kz23` (line.py). -/
def kz34 (L E G Ay Iz : K) : K := kz23 L E G Ay Iz

/-- `kz44 = kz22` (line.py). -/
def kz44 (L E G Ay Iz : K) : K := kz22 L E G Ay Iz

/-- `ky11 = kyPre * 12` (line.py). -/
def ky11 (L E G Az Iy : K) : K := kyPre L E G Az Iy * 12

/-- `ky12 = -L * kyPre * 6` (line.py). -/
def ky12 (L E G Az Iy : K) : K := -L * kyPre L E G Az Iy * 6

/-- `ky13 = -ky11` (line.py). -/
def ky13 (L E G Az Iy : K) : K := -ky11 L E G Az Iy

/-- `ky14 = ky12` (line.py). -/
def ky14 (L E G Az Iy : K) : K := ky12 L E G Az Iy

/-- `ky22 = (phiZ + 4) * kyPre * L * L` (line.py). -/
def ky22 (L E G Az Iy : K) : K :=
  (phiZ L E G Az Iy + 4) * kyPre L E G Az Iy * L * L

/-- `ky23 = -ky12` (line.py). -/
def ky23 (L E G Az Iy : K) : K := -ky12 L E G Az Iy

/-- `ky24 = (2 - phiZ) * kyPre * L * L` (line.py). -/
def ky24 (L E G Az Iy : K) : K :=
  (2 - phiZ L E G Az Iy) * kyPre L E G Az Iy * L * L

/-- `ky33 = ky11` (line.py). -/
def ky33 (L E G Az Iy : K) : K := ky11 L E G Az Iy

/-- `ky34 = ky23` (line.py). -/
def ky34 (L E G Az Iy : K) : K := ky23 L E G Az Iy

/-- `ky44 = ky22` (line.py). -/
def ky44 (L E G Az Iy : K) : K := ky22 L E G Az Iy

/-- The first 6x6 tuple yielded by `stiffness_local` (line.py), row for row;
`Ay` and `Az` are the already-defaulted shear areas. -/
def localM11 (L E G Ax Iz Iy Ay Az J : K) : Matrix (Fin 6) (Fin 6) K :=
  !![a L E Ax, 0, 0, 0, 0, 0;
     0, kz11 L E G Ay Iz, 0, 0, 0, kz12 L E G Ay Iz;
     0, 0, ky11 L E G Az Iy, 0, ky12 L E G Az Iy, 0;
     0, 0, 0, s L G J, 0, 0;
     0, 0, ky12 L E G Az Iy, 0, ky22 L E G Az Iy, 0;
     0, kz12 L E G Ay Iz, 0, 0, 0, kz22 L E G Ay Iz]

/-- The second 6x6 tuple yielded by `stiffness_local` (line.py). -/
def localM12 (L E G Ax Iz Iy Ay Az J : K) : Matrix (Fin 6) (Fin 6) K :=
  !![-a L E Ax, 0, 0, 0, 0, 0;
     0, kz13 L E G Ay Iz, 0, 0, 0, kz14 L E G Ay Iz;
     0, 0, ky13 L E G Az Iy, 0, ky14 L E G Az Iy, 0;
     0, 0, 0, -s L G J, 0, 0;
     0, 0, ky23 L E G Az Iy, 0, ky24 L E G Az Iy, 0;
     0, kz23 L E G Ay Iz, 0, 0, 0, kz24 L E G Ay Iz]

/-- The third 6x6 tuple yielded by `stiffness_local` (line.py). -/
def localM21 (L E G Ax Iz Iy Ay Az J : K) : Matrix (Fin 6) (Fin 6) K :=
  !![-a L E Ax, 0, 0, 0, 0, 0;
     0, kz13 L E G Ay Iz, 0, 0, 0, kz23 L E G Ay Iz;
     0, 0, ky13 L E G Az Iy, 0, ky23 L E G Az Iy, 0;
     0, 0, 0, -s L G J, 0, 0;
     0, 0, ky14 L E G Az Iy, 0, ky24 L E G Az Iy, 0;
     0, kz14 L E G Ay Iz, 0, 0, 0, kz24 L E G Ay Iz]

/-- The fourth 6x6 tuple yielded by `stiffness_local` (line.py). -/
def localM22 (L E G Ax Iz Iy Ay Az J : K) : Matrix (Fin 6) (Fin 6) K :=
  !![a L E Ax, 0, 0, 0, 0, 0;
     0, kz33 L E G Ay Iz, 0, 0, 0, kz34 L E G Ay Iz;
     0, 0, ky33 L E G Az Iy, 0, ky34 L E G Az Iy, 0;
     0, 0, 0, s L G J, 0, 0;
     0, 0, ky34 L E G Az Iy, 0, ky44 L E G Az Iy, 0;
     0, kz34 L E G Ay Iz, 0, 0, 0, kz44 L E G Ay Iz]

/-- `stiffness_local(L, E, G, Ax, Iz=0, Iy=0, Ay=0, Az=0, J=0)` from line.py.
The generator yields the four 6x6 tuples `localM11`, `localM12`, `localM21`,
`localM22` in that order; the two leading `let`s mirror the defaulting
statements `if Ay == 0: Ay = Ax` and `if Az == 0: Az = Ax`. -/
def stiffness_local (L E G Ax Iz Iy Ay Az J : K) : Blocks K :=
  let Ay := if Ay = 0 then Ax else Ay
  let Az := if Az = 0 then Ax else Az
  { M11 := localM11 L E G Ax Iz Iy Ay Az J,
    M12 := localM12 L E G Ax Iz Iy Ay Az J,
    M21 := localM21 L E G Ax Iz Iy Ay Az J,
    M22 := localM22 L E G Ax Iz Iy Ay Az J }

/-- `stiffness_local` with the two defaulting statements removed: the body is
identical except that `Ay` and `Az` are consumed exactly as supplied.  Used
only to state the defaulting rule as an equation. -/
def stiffness_localNoDefault (L E G Ax Iz Iy Ay Az J : K) : Blocks K :=
  { M11 := localM11 L E G Ax Iz Iy Ay Az J,
    M12 := localM12 L E G Ax Iz Iy Ay Az J,
    M21 := localM21 L E G Ax Iz Iy Ay Az J,
    M22 := localM22 L E G Ax Iz Iy Ay Az J }

/-- Zero-divisor bookkeeping for `stiffness_local`.  Python float division by
zero raises `ZeroDivisionError`, so the source yields its blocks only when
every divisor it reaches is non-zero: the divisors are `G`, the defaulted
`Ay`/`Az` and `L` (inside `phiY`/`phiZ`, reached only when `Iz != 0` resp.
`Iy != 0`), `L` (in `a`, `s`, `kzPre`, `kyPre`) and `phiY + 1`, `phiZ + 1`
(in `kzPre`, `kyPre`).  Returns `none` exactly when some division in the
source has a zero divisor, `some` of the blocks otherwise. -/
def stiffness_localChecked (L E G Ax Iz Iy Ay Az J : K) : Option (Blocks K) :=
  let Ay2 := if Ay = 0 then Ax else Ay
  let Az2 := if Az = 0 then Ax else Az
  if Iz ≠ 0 ∧ (G = 0 ∨ Ay2 = 0 ∨ L = 0) then none
  else if Iy ≠ 0 ∧ (G = 0 ∨ Az2 = 0 ∨ L = 0) then none
  else if L = 0 then none
  else if phiY L E G Ay2 Iz + 1 = 0 then none
  else if phiZ L E G Az2 Iy + 1 = 0 then none
  else some (stiffness_local L E G Ax Iz Iy Ay Az J)



/-- `norm((x, y, z))` (numpy 2-norm) as used by `stiffness_global`. -/
noncomputable def norm3 (x y z : ℝ) : ℝ := Real.sqrt (x ^ 2 + y ^ 2 + z ^ 2)

/-- Cross product of 3-vectors, a helper for the spec-modelled transform. -/
def cross3 (u v : Fin 3 → ℝ) : Fin 3 → ℝ :=
  ![u 1 * v 2 - u 2 * v 1, u 2 * v 0 - u 0 * v 2, u 0 * v 1 - u 1 * v 0]

/-- Modelled from the spec: `transformMatrix(x, y, z, theta)` lives in
`frame_calculator/matrix.py`, which is not among the available sources.
Spec §4.2 (AxisTransform) describes it: normalize `direction` into the local
x-axis `ex`, signalling an invalid-geometry error on a zero-length direction
("must not proceed"); choose the global vertical axis as the reference "up"
vector unless `direction` is parallel to it (then a fallback reference
axis); build `ey`, `ez` by cross products with re-orthonormalization; rotate
`ey` and `ez` about `ex` by the roll angle `theta`; assemble the 3x3 matrix
with rows `ex, ey, ez`.  The invalid-geometry error is modelled as `none`. -/
noncomputable def transformMatrix (x y z theta : ℝ) :
    Option (Matrix (Fin 3) (Fin 3) ℝ) :=
  if norm3 x y z = 0 then none
  else
    let n := norm3 x y z
    let ex : Fin 3 → ℝ := ![x / n, y / n, z / n]
    let up : Fin 3 → ℝ := if x = 0 ∧ z = 0 then ![0, 0, 1] else ![0, 1, 0]
    let ey0 := cross3 up ex
    let m := Real.sqrt (ey0 0 ^ 2 + ey0 1 ^ 2 + ey0 2 ^ 2)
    let ey1 : Fin 3 → ℝ := ![ey0 0 / m, ey0 1 / m, ey0 2 / m]
    let ez0 := cross3 ex ey1
    let ey2 := cross3 ez0 ex
    let ey := fun i => Real.cos theta * ey2 i + Real.sin theta * ez0 i
    let ez := fun i => -Real.sin theta * ey2 i + Real.cos theta * ez0 i
    some (Matrix.of ![ex, ey, ez])

/-- `block_diag(T, T)` from `stiffness_global` (line.py): the 6x6
block-diagonal expansion of the 3x3 transform, reindexed to `Fin 6`. -/
noncomputable def blockDiag2 (T : Matrix (Fin 3) (Fin 3) ℝ) :
    Matrix (Fin 6) (Fin 6) ℝ :=
  Matrix.reindex finSumFinEquiv finSumFinEquiv (Matrix.fromBlocks T 0 0 T)

/-- `stiffness_global(x, y, z, E, G, Ax, Iz=0, Iy=0, Ay=0, Az=0, theta=0,
J=0)` from line.py: builds `t = block_diag(*(transformMatrix(x, y, z,
theta),) * 2)` and `r = t.transpose()`, and yields `dot(dot(t, m), r)` for
each block `m` of `stiffness_local(norm((x, y, z)), E, G, Ax, Iz, Iy, Ay,
Az, J)` (the locals `t` and `r` are inlined here).  Both error paths are
kept: the spec-modelled invalid-geometry error of `transformMatrix`, and the
`ZeroDivisionError` paths of the local computation — composed through
`stiffness_localChecked` — propagate as `none`, so `some` is returned
exactly when the Python generator yields its four matrices. -/
noncomputable def stiffness_global (x y z E G Ax Iz Iy Ay Az theta J : ℝ) :
    Option (Blocks ℝ) :=
  (transformMatrix x y z theta).bind fun T0 =>
    (stiffness_localChecked (norm3 x y z) E G Ax Iz Iy Ay Az J).map fun m =>
      { M11 := blockDiag2 T0 * m.M11 * (blockDiag2 T0)ᵀ,
        M12 := blockDiag2 T0 * m.M12 * (blockDiag2 T0)ᵀ,
        M21 := blockDiag2 T0 * m.M21 * (blockDiag2 T0)ᵀ,
        M22 := blockDiag2 T0 * m.M22 * (blockDiag2 T0)ᵀ }

end Line

namespace Sect

/-- Outcome of a Python call in section.py: a returned value, Python's
`None` (returned when `convert` falls off the end of its `if`/`elif` chain),
or a raised exception identified by its class name. -/
inductive PyOut (α : Type) where
  | val : α → PyOut α
  | retNone : PyOut α
  | exn : String → PyOut α

/-- The argument dictionary of `convert` (section.py): the `'shape'` entry is
held separately (as an `Option`, so that `pop('shape')` and its `KeyError`
case are expressible) from the numeric entries, which are an association
list in insertion order. -/
structure SectionDict where
  shape? : Option String
  params : List (String × ℝ)

/-- `h(H, B, tw, tf, r=0)` from section.py, line for line; Python reuses the
names `tIf`, `tIw`, `tIr` for both bending axes, renamed here with suffixes
1 and 2.  The returned dictionary is the association list in source order. -/
noncomputable def h (H B tw tf r : ℝ) : List (String × ℝ) :=
  let rd := (1 - 2 / (4 - Real.pi) / 3) * r
  let rA := (1 - Real.pi * 0.25) * r ^ 2
  let rI := (1 / 3 - Real.pi / 16 - 1 / (4 - Real.pi) / 9) * r ^ 4
  let A := B * tf * 2 + (H - tf * 2) * tw + rA * 4
  let tIf1 := tf * B * B * B / 12
  let tIw1 := (H - tf * 2) * tw * tw * tw / 12
  let tIr1 := rI + rA * ((tw * 0.25 + rd) * tw + rd * rd)
  let Iz := tIf1 * 2 + tIw1 + tIr1 * 4
  let tIf2 := B * tf ^ 3 / 12 + B * tf * (H - tf) ^ 2 * 0.25
  let tIw2 := tw * (H - tf * 2) ^ 3 / 12
  let tIr2 := rI + rA * (H * 0.5 - tf - rd) ^ 2
  let Iy := tIf2 * 2 + tIw2 + tIr2 * 4
  [("Ax", A), ("Ay", tf * B * 2), ("Az", tw * H), ("Iy", Iy), ("Iz", Iz),
   ("J", (B * tf ^ 3 * 2 + (H - tf * 2) * tw ^ 3) / 3),
   ("Zy", Iy / H * 2), ("Zz", Iz / B * 2),
   ("iy", Real.sqrt (Iy / A)), ("iz", Real.sqrt (Iz / A))]

/-- `t(H, B, tw, tf, r=0)` from section.py, line for line (same renaming of
the reused `tIf`/`tIw`/`tIr` locals as in `h`). -/
noncomputable def t (H B tw tf r : ℝ) : List (String × ℝ) :=
  let rd := (1 - 2 / (4 - Real.pi) / 3) * r
  let rA := (1 - Real.pi * 0.25) * r ^ 2
  let rI := (1 / 3 - Real.pi / 16 - 1 / (4 - Real.pi) / 9) * r ^ 4
  let A := B * tf + (H - tf) * tw + rA * 2
  let Sy := ((B - tw) * tf * tf + H * H * tw) * 0.5 + rA * (tf + rd) * 2
  let Cy := Sy / A
  let tIf1 := tf * B * B * B / 12
  let tIw1 := (H - tf) * tw * tw * tw / 12
  let tIr1 := rI + rA * (tw * 0.5 + rd) ^ 2
  let Iz := tIf1 + tIw1 + tIr1 * 2
  let tIf2 := B * tf * tf * tf / 12 + B * tf * (Cy - tf * 0.5) ^ 2
  let tIw2 := tw * (H - tf) ^ 3 / 12 + tw * (H - tf) * ((H + tf) * 0.5 - Cy) ^ 2
  let tIr2 := rI + rA * (Cy - tf - rd) ^ 2
  let Iy := tIf2 + tIw2 + tIr2 * 2
  [("Ax", A), ("Ay", tf * B), ("Az", tw * H), ("Iy", Iy), ("Iz", Iz),
   ("Zy", Iy / max Cy (H - Cy)), ("Zz", Iz / B * 2),
   ("iy", Real.sqrt (Iy / A)), ("iz", Real.sqrt (Iz / A)), ("Cz", Cy)]

/-- `o(D, t=0)` from section.py, line for line.  Python's truthiness test
`if t:` is `t ≠ 0`; the two conditional in-place subtractions become
conditional expressions.  (The source really does subtract
`0.015625 * (D - t) ** 2 * pi` — exponent 2 — from `I`; translated
faithfully.) -/
noncomputable def o (D t : ℝ) : List (String × ℝ) :=
  let A0 := 0.25 * D ^ 2 * Real.pi
  let I0 := 0.015625 * D ^ 4 * Real.pi
  let A := if t ≠ 0 then A0 - 0.25 * (D - t) ^ 2 * Real.pi else A0
  let I := if t ≠ 0 then I0 - 0.015625 * (D - t) ^ 2 * Real.pi else I0
  let Z := 0.5 * I / D
  let i := Real.sqrt (I / A)
  [("Ax", A), ("Iy", I), ("Iz", I), ("Zy", Z), ("Zz", Z), ("iy", i), ("iz", i),
   ("J", I * 2)]

/-- Keyword-argument binding for `h(**section_parameters)`: the call raises
`TypeError` when a required key is missing or an unexpected key is present;
the optional `r` defaults to `0`. -/
noncomputable def callH (ps : List (String × ℝ)) : PyOut (List (String × ℝ)) :=
  match List.lookup "H" ps, List.lookup "B" ps, List.lookup "tw" ps,
      List.lookup "tf" ps with
  | some vH, some vB, some vtw, some vtf =>
    if (ps.map Prod.fst).all (fun k => (["H", "B", "tw", "tf", "r"] : List String).contains k)
    then PyOut.val (h vH vB vtw vtf ((List.lookup "r" ps).getD 0))
    else PyOut.exn "TypeError"
  | _, _, _, _ => PyOut.exn "TypeError"

/-- Keyword-argument binding for `t(**section_parameters)`. -/
noncomputable def callT (ps : List (String × ℝ)) : PyOut (List (String × ℝ)) :=
  match List.lookup "H" ps, List.lookup "B" ps, List.lookup "tw" ps,
      List.lookup "tf" ps with
  | some vH, some vB, some vtw, some vtf =>
    if (ps.map Prod.fst).all (fun k => (["H", "B", "tw", "tf", "r"] : List String).contains k)
    then PyOut.val (t vH vB vtw vtf ((List.lookup "r" ps).getD 0))
    else PyOut.exn "TypeError"
  | _, _, _, _ => PyOut.exn "TypeError"

/-- Keyword-argument binding for `o(**section_parameters)`. -/
noncomputable def callO (ps : List (String × ℝ)) : PyOut (List (String × ℝ)) :=
  match List.lookup "D" ps with
  | some vD =>
    if (ps.map Prod.fst).all (fun k => (["D", "t"] : List String).contains k)
    then PyOut.val (o vD ((List.lookup "t" ps).getD 0))
    else PyOut.exn "TypeError"
  | none => PyOut.exn "TypeError"

/-- `convert(section_parameters)` from section.py, together with the
post-call state of its argument dictionary (Python mutates it:
`shape = section_parameters.pop('shape')` removes the `'shape'` key, raising
`KeyError` when absent).  The `'I'`, `'C'` and `'R'` branches call the
module-level names `i`, `c` and `r`, which are not defined anywhere in
section.py, so those calls raise `NameError`; a shape tag outside the six
tested ones falls off the `if`/`elif` chain and returns Python's `None`. -/
noncomputable def convert (d : SectionDict) :
    PyOut (List (String × ℝ)) × SectionDict :=
  match d.shape? with
  | none => (PyOut.exn "KeyError", d)
  | some shape =>
    (if shape = "H" then callH d.params
     else if shape = "T" then callT d.params
     else if shape = "I" then PyOut.exn "NameError"
     else if shape = "O" then callO d.params
     else if shape = "C" then PyOut.exn "NameError"
     else if shape = "R" then PyOut.exn "NameError"
     else PyOut.retNone,
     { shape? := none, params := d.params })

/-- `properties(shape, **kwargs)` from section.py: adds `'shape'` to a fresh
keyword dictionary and delegates to `convert`. -/
noncomputable def properties (shape : String) (kwargs : List (String × ℝ)) :
    PyOut (List (String × ℝ)) :=
  (convert { shape? := some shape, params := kwargs }).1

end Sect

end FrameCalculator

namespace FrameCalculator

namespace Line

variable {K : Type} [LinearOrderedField K] [DecidableEq K]

/-- `![x0, ..., x5] 5` evaluates to `x5`; companion to Mathlib's
`Matrix.cons_val_four`, needed for entry evaluation of 6x6 literals. -/
@[simp]
theorem cons_val_five {m : ℕ} {α : Type} (x : α) (u : Fin (m + 5) → α) :
    vecCons x u 5 = vecHead (vecTail (vecTail (vecTail (vecTail u)))) :=
  rfl

/-- The tail of a constant vector is constant; companion to Mathlib's
`Matrix.head_fin_const`, needed for entry evaluation of 6x6 literals. -/
@[simp]
theorem tail_fin_const {m : ℕ} {α : Type} (c : α) :
    (vecTail fun _ : Fin (m + 1) => c) = fun _ : Fin m => c :=
  rfl

theorem localM11_transpose (L E G Ax Iz Iy Ay Az J : K) :
    (localM11 L E G Ax Iz Iy Ay Az J)ᵀ = localM11 L E G Ax Iz Iy Ay Az J := by
  ext i j
  fin_cases i <;> fin_cases j <;> simp [localM11, vecHead, vecTail]

theorem localM22_transpose (L E G Ax Iz Iy Ay Az J : K) :
    (localM22 L E G Ax Iz Iy Ay Az J)ᵀ = localM22 L E G Ax Iz Iy Ay Az J := by
  ext i j
  fin_cases i <;> fin_cases j <;> simp [localM22, vecHead, vecTail]

theorem localM21_eq_localM12_transpose (L E G Ax Iz Iy Ay Az J : K) :
    localM21 L E G Ax Iz Iy Ay Az J = (localM12 L E G Ax Iz Iy Ay Az J)ᵀ := by
  ext i j
  fin_cases i <;> fin_cases j <;> simp [localM21, localM12, vecHead, vecTail]

/-- C2: for every valid input (L > 0, E > 0, G > 0, Ax > 0 and
Iz, Iy, Ay, Az, J nonnegative) the four blocks (M11, M12, M21, M22) yielded by
`stiffness_local` satisfy: M11 is symmetric, M22 is symmetric, and M21 equals
the transpose of M12, all exactly. -/
theorem stiffness_local_block_symmetry (L E G Ax Iz Iy Ay Az J : ℚ)
    (hL : 0 < L) (hE : 0 < E) (hG : 0 < G) (hAx : 0 < Ax)
    (hIz : 0 ≤ Iz) (hIy : 0 ≤ Iy) (hAy : 0 ≤ Ay) (hAz : 0 ≤ Az) (hJ : 0 ≤ J) :
    (stiffness_local L E G Ax Iz Iy Ay Az J).M11.IsSymm ∧
      (stiffness_local L E G Ax Iz Iy Ay Az J).M22.IsSymm ∧
      (stiffness_local L E G Ax Iz Iy Ay Az J).M21 =
        ((stiffness_local L E G Ax Iz Iy Ay Az J).M12)ᵀ :=
  ⟨localM11_transpose L E G Ax Iz Iy (if Ay = 0 then Ax else Ay)
      (if Az = 0 then Ax else Az) J,
    localM22_transpose L E G Ax Iz Iy (if Ay = 0 then Ax else Ay)
      (if Az = 0 then Ax else Az) J,
    localM21_eq_localM12_transpose L E G Ax Iz Iy (if Ay = 0 then Ax else Ay)
      (if Az = 0 then Ax else Az) J⟩

theorem stiffness_local_block_symmetry_witness :
    (0 : ℚ) < 1 ∧
      ((stiffness_local (1 : ℚ) 1 1 1 1 1 1 1 1).M11.IsSymm ∧
        (stiffness_local (1 : ℚ) 1 1 1 1 1 1 1 1).M22.IsSymm ∧
        (stiffness_local (1 : ℚ) 1 1 1 1 1 1 1 1).M21 =
          ((stiffness_local (1 : ℚ) 1 1 1 1 1 1 1 1).M12)ᵀ) :=
  ⟨by norm_num,
    stiffness_local_block_symmetry 1 1 1 1 1 1 1 1 1 (by norm_num) (by norm_num)
      (by norm_num) (by norm_num) (by norm_num) (by norm_num) (by norm_num)
      (by norm_num) (by norm_num)⟩

/-- C5: `stiffness_local` consumes `Ay` and `Az` only through the defaulting
rule `if Ay == 0: Ay = Ax` (resp. `Az`): a zero shear area is replaced by
`Ax` in all subsequent computations, and non-zero shear areas are used
unchanged. -/
theorem stiffness_local_shear_area_defaulting (L E G Ax Iz Iy Ay Az J : K) :
    stiffness_local L E G Ax Iz Iy Ay Az J =
      stiffness_localNoDefault L E G Ax Iz Iy
        (if Ay = 0 then Ax else Ay) (if Az = 0 then Ax else Az) J := rfl

theorem phiY_nonneg (L E G Ay Iz : K)
    (hE : 0 ≤ E) (hG : 0 ≤ G) (hAy : 0 ≤ Ay) (hIz : 0 ≤ Iz) :
    0 ≤ phiY L E G Ay Iz := by
  unfold phiY
  split
  · refine mul_nonneg ?_ hE
    rw [div_div]
    exact div_nonneg (div_nonneg (div_nonneg (mul_nonneg (by norm_num) hIz) hG)
      hAy) (mul_self_nonneg L)
  · exact le_refl 0

theorem phiZ_nonneg (L E G Az Iy : K)
    (hE : 0 ≤ E) (hG : 0 ≤ G) (hAz : 0 ≤ Az) (hIy : 0 ≤ Iy) :
    0 ≤ phiZ L E G Az Iy := by
  unfold phiZ
  split
  · refine mul_nonneg ?_ hE
    rw [div_div]
    exact div_nonneg (div_nonneg (div_nonneg (mul_nonneg (by norm_num) hIy) hG)
      hAz) (mul_self_nonneg L)
  · exact le_refl 0

theorem kzPre_nonneg (L E G Ay Iz : K)
    (hE : 0 ≤ E) (hG : 0 ≤ G) (hAy : 0 ≤ Ay) (hIz : 0 ≤ Iz) :
    0 ≤ kzPre L E G Ay Iz := by
  unfold kzPre
  refine mul_nonneg ?_ hE
  rw [div_div]
  refine div_nonneg (div_nonneg hIz ?_) (mul_self_nonneg L)
  have := phiY_nonneg L E G Ay Iz hE hG hAy hIz
  linarith

theorem kyPre_nonneg (L E G Az Iy : K)
    (hE : 0 ≤ E) (hG : 0 ≤ G) (hAz : 0 ≤ Az) (hIy : 0 ≤ Iy) :
    0 ≤ kyPre L E G Az Iy := by
  unfold kyPre
  refine mul_nonneg ?_ hE
  rw [div_div]
  refine div_nonneg (div_nonneg hIy ?_) (mul_self_nonneg L)
  have := phiZ_nonneg L E G Az Iy hE hG hAz hIy
  linarith

theorem a_nonneg (L E Ax : K) (hL : 0 ≤ L) (hE : 0 ≤ E) (hAx : 0 ≤ Ax) :
    0 ≤ a L E Ax :=
  mul_nonneg (div_nonneg hAx hL) hE

theorem s_nonneg (L G J : K) (hL : 0 ≤ L) (hG : 0 ≤ G) (hJ : 0 ≤ J) :
    0 ≤ s L G J :=
  mul_nonneg (div_nonneg hJ hL) hG

/-- C3: for inputs with L > 0, G > 0 and non-zero (post-defaulting) shear
areas, the coefficients computed by `stiffness_local` agree with the spec
formulas: `phiY = 12·E·Iz/(G·Ay·L²)` when `Iz ≠ 0` and `0` otherwise (and
symmetrically for `phiZ`), `a = E·Ax/L`, `s = G·J/L`,
`kzPre = E·Iz/((phiY+1)·L²)` and `kyPre = E·Iy/((phiZ+1)·L²)`. -/
theorem stiffness_local_coefficients (L E G Ax Iz Iy Ay Az J : ℚ)
    (hL : 0 < L) (hG : 0 < G) (hAy : Ay ≠ 0) (hAz : Az ≠ 0) :
    phiY L E G Ay Iz = (if Iz ≠ 0 then 12 * E * Iz / (G * Ay * L ^ 2) else 0) ∧
      phiZ L E G Az Iy = (if Iy ≠ 0 then 12 * E * Iy / (G * Az * L ^ 2) else 0) ∧
      a L E Ax = E * Ax / L ∧
      s L G J = G * J / L ∧
      kzPre L E G Ay Iz = E * Iz / ((phiY L E G Ay Iz + 1) * L ^ 2) ∧
      kyPre L E G Az Iy = E * Iy / ((phiZ L E G Az Iy + 1) * L ^ 2) := by
  refine ⟨?_, ?_, ?_, ?_, ?_, ?_⟩
  · unfold phiY
    split
    · ring
    · rfl
  · unfold phiZ
    split
    · ring
    · rfl
  · unfold a
    ring
  · unfold s
    ring
  · unfold kzPre
    rw [div_div, div_div, div_mul_eq_mul_div, mul_comm Iz E, pow_two]
  · unfold kyPre
    rw [div_div, div_div, div_mul_eq_mul_div, mul_comm Iy E, pow_two]

theorem stiffness_local_coefficients_witness :
    (0 : ℚ) < 2 ∧
      (phiY (2 : ℚ) 3 5 7 11 = (if (11 : ℚ) ≠ 0 then 12 * 3 * 11 / (5 * 7 * 2 ^ 2) else 0) ∧
        phiZ (2 : ℚ) 3 5 13 17 = (if (17 : ℚ) ≠ 0 then 12 * 3 * 17 / (5 * 13 * 2 ^ 2) else 0) ∧
        a (2 : ℚ) 3 19 = 3 * 19 / 2 ∧
        s (2 : ℚ) 5 23 = 5 * 23 / 2 ∧
        kzPre (2 : ℚ) 3 5 7 11 = 3 * 11 / ((phiY (2 : ℚ) 3 5 7 11 + 1) * 2 ^ 2) ∧
        kyPre (2 : ℚ) 3 5 13 17 = 3 * 17 / ((phiZ (2 : ℚ) 3 5 13 17 + 1) * 2 ^ 2)) :=
  ⟨by norm_num,
    stiffness_local_coefficients 2 3 5 19 11 17 7 13 23 (by norm_num) (by norm_num)
      (by norm_num) (by norm_num)⟩

/-- C4: evaluation of `stiffness_local` at the concrete valid input
L = 2, E = 1, G = 1, Ax = 1, Iz = 1, Iy = 0, Ay = 1, Az = 1, J = 0
(for which the code computes `phiY = 3`): the bending translation entry
M11[1][1] equals `12·E·Iz/((1+phiY)·L²) = 3/4`, whereas the Timoshenko /
Euler-Bernoulli stencil required by the spec gives
`12·E·Iz/((1+phiY)·L³) = 3/8`; the two differ, so the `phiY = 0` limit
cannot reproduce the classical coefficient `12·E·Iz/L³`: every bending
entry of the code is larger than the classical stencil by one factor of L
because `kzPre` divides by `L` twice instead of three times. -/
theorem stiffness_local_bending_off_by_factor_L :
    (stiffness_local (2 : ℚ) 1 1 1 1 0 1 1 0).M11 1 1 = 3 / 4 ∧
      phiY (2 : ℚ) 1 1 1 1 = 3 ∧
      12 * (1 : ℚ) * 1 / ((1 + phiY (2 : ℚ) 1 1 1 1) * 2 ^ 3) = 3 / 8 ∧
      (3 / 4 : ℚ) ≠ 3 / 8 := by
  refine ⟨?_, ?_, ?_, by norm_num⟩
  · norm_num [stiffness_local, localM11, kz11, kzPre, phiY, vecHead, vecTail]
  · norm_num [phiY]
  · norm_num [phiY]

theorem stiffness_localChecked_eq_some (L E G Ax Iz Iy Ay Az J : K)
    (hL : L ≠ 0) (hG : G ≠ 0)
    (hAy : (if Ay = 0 then Ax else Ay) ≠ 0)
    (hAz : (if Az = 0 then Ax else Az) ≠ 0)
    (hpy : phiY L E G (if Ay = 0 then Ax else Ay) Iz + 1 ≠ 0)
    (hpz : phiZ L E G (if Az = 0 then Ax else Az) Iy + 1 ≠ 0) :
    stiffness_localChecked L E G Ax Iz Iy Ay Az J =
      some (stiffness_local L E G Ax Iz Iy Ay Az J) := by
  have c1 : ¬(Iz ≠ 0 ∧ (G = 0 ∨ (if Ay = 0 then Ax else Ay) = 0 ∨ L = 0)) := by
    rintro ⟨-, hc | hc | hc⟩
    · exact hG hc
    · exact hAy hc
    · exact hL hc
  have c2 : ¬(Iy ≠ 0 ∧ (G = 0 ∨ (if Az = 0 then Ax else Az) = 0 ∨ L = 0)) := by
    rintro ⟨-, hc | hc | hc⟩
    · exact hG hc
    · exact hAz hc
    · exact hL hc
  simp only [stiffness_localChecked]
  rw [if_neg c1, if_neg c2, if_neg hL, if_neg hpy, if_neg hpz]

theorem stiffness_localChecked_some_eq {L E G Ax Iz Iy Ay Az J : K}
    {m : Blocks K}
    (h : stiffness_localChecked L E G Ax Iz Iy Ay Az J = some m) :
    m = stiffness_local L E G Ax Iz Iy Ay Az J := by
  simp only [stiffness_localChecked] at h
  repeat' split at h
  all_goals
    first
    | exact Option.noConfusion h
    | exact (Option.some_injective _ h).symm

/-- C6 (counterexample): at the concrete input L = 1, E = 1, G = 1, Ax = 1,
Iz = -1, Iy = 0, Ay = 1, Az = 1, J = 0 — a negative moment of inertia —
`stiffness_local` reaches no error of any kind and silently yields its four
blocks; no input validation exists anywhere in the function. -/
theorem stiffness_local_negative_Iz_silent :
    (stiffness_localChecked (1 : ℚ) 1 1 1 (-1) 0 1 1 0).isSome = true := by
  norm_num [stiffness_localChecked, phiY, phiZ]

/-- C6 (amended): `stiffness_local` performs no input validation at all:
whenever no division reaches a zero divisor (L ≠ 0, G ≠ 0, non-zero
defaulted shear areas, `phiY + 1 ≠ 0`, `phiZ + 1 ≠ 0`), it yields four
matrices computed from the formulas — even when L < 0, E ≤ 0, G < 0, or any
of Ax, Iz, Iy, Ay, Az, J is negative.  In particular a negative Iz results
in a silently-computed matrix. -/
theorem stiffness_local_no_validation (L E G Ax Iz Iy Ay Az J : ℚ)
    (hL : L ≠ 0) (hG : G ≠ 0)
    (hAy : (if Ay = 0 then Ax else Ay) ≠ 0)
    (hAz : (if Az = 0 then Ax else Az) ≠ 0)
    (hpy : phiY L E G (if Ay = 0 then Ax else Ay) Iz + 1 ≠ 0)
    (hpz : phiZ L E G (if Az = 0 then Ax else Az) Iy + 1 ≠ 0) :
    stiffness_localChecked L E G Ax Iz Iy Ay Az J =
      some (stiffness_local L E G Ax Iz Iy Ay Az J) :=
  stiffness_localChecked_eq_some L E G Ax Iz Iy Ay Az J hL hG hAy hAz hpy hpz

theorem stiffness_local_no_validation_witness :
    ((1 : ℚ) ≠ 0 ∧ (-1 : ℚ) ≠ 0) ∧
      stiffness_localChecked (1 : ℚ) (-1) 1 1 (-1) 0 1 1 0 =
        some (stiffness_local (1 : ℚ) (-1) 1 1 (-1) 0 1 1 0) :=
  ⟨⟨by norm_num, by norm_num⟩,
    stiffness_local_no_validation 1 (-1) 1 1 (-1) 0 1 1 0 (by norm_num)
      (by norm_num) (by norm_num) (by norm_num) (by norm_num [phiY])
      (by norm_num [phiZ])⟩

/-- C10: under the stated preconditions (L > 0, E > 0, G > 0, Ax > 0 and
Iz, Iy, Ay, Az, J nonnegative) every division in `stiffness_local` has a
non-zero divisor, so the function totally yields all four blocks; and the
hypothesis Ax > 0 cannot be dropped: at Ax = 0, Ay = 0, Iz = 1 (other inputs
harmless) the defaulted Ay is a zero divisor and the computation aborts. -/
theorem stiffness_local_division_safety (L E G Ax Iz Iy Ay Az J : ℚ)
    (hL : 0 < L) (hE : 0 < E) (hG : 0 < G) (hAx : 0 < Ax)
    (hIz : 0 ≤ Iz) (hIy : 0 ≤ Iy) (hAy : 0 ≤ Ay) (hAz : 0 ≤ Az) (hJ : 0 ≤ J) :
    stiffness_localChecked L E G Ax Iz Iy Ay Az J =
        some (stiffness_local L E G Ax Iz Iy Ay Az J) ∧
      stiffness_localChecked (1 : ℚ) 1 1 0 1 0 0 0 0 = none := by
  have hAy2 : (if Ay = 0 then Ax else Ay) ≠ 0 := by
    split
    · exact ne_of_gt hAx
    · next h => exact h
  have hAz2 : (if Az = 0 then Ax else Az) ≠ 0 := by
    split
    · exact ne_of_gt hAx
    · next h => exact h
  have hAy2n : 0 ≤ (if Ay = 0 then Ax else Ay) := by
    split
    · exact le_of_lt hAx
    · exact hAy
  have hAz2n : 0 ≤ (if Az = 0 then Ax else Az) := by
    split
    · exact le_of_lt hAx
    · exact hAz
  constructor
  · refine stiffness_localChecked_eq_some L E G Ax Iz Iy Ay Az J
      (ne_of_gt hL) (ne_of_gt hG) hAy2 hAz2 ?_ ?_
    · have := phiY_nonneg L E G (if Ay = 0 then Ax else Ay) Iz
        (le_of_lt hE) (le_of_lt hG) hAy2n hIz
      intro hc
      linarith
    · have := phiZ_nonneg L E G (if Az = 0 then Ax else Az) Iy
        (le_of_lt hE) (le_of_lt hG) hAz2n hIy
      intro hc
      linarith
  · norm_num [stiffness_localChecked]

theorem stiffness_local_division_safety_witness :
    (0 : ℚ) < 1 ∧
      (stiffness_localChecked (1 : ℚ) 1 1 1 1 1 1 1 1 =
          some (stiffness_local (1 : ℚ) 1 1 1 1 1 1 1 1) ∧
        stiffness_localChecked (1 : ℚ) 1 1 0 1 0 0 0 0 = none) :=
  ⟨by norm_num,
    stiffness_local_division_safety 1 1 1 1 1 1 1 1 1 (by norm_num) (by norm_num)
      (by norm_num) (by norm_num) (by norm_num) (by norm_num) (by norm_num)
      (by norm_num) (by norm_num)⟩

set_option maxHeartbeats 2000000 in
/-- The quadratic form of the assembled 12x12 local stiffness matrix is an
explicit weighted sum of squares: one square for the axial pair, one for the
torsional pair, and two for each bending plane. -/
theorem assemble12_quadForm (L E G Ax Iz Iy Ay Az J : K)
    (v : Fin 6 ⊕ Fin 6 → K) :
    dotProduct v
        ((assemble12 (stiffness_localNoDefault L E G Ax Iz Iy Ay Az J)) *ᵥ v) =
      a L E Ax * (v (Sum.inl 0) - v (Sum.inr 0)) ^ 2
        + s L G J * (v (Sum.inl 3) - v (Sum.inr 3)) ^ 2
        + kzPre L E G Ay Iz *
            (3 * (2 * (v (Sum.inl 1) - v (Sum.inr 1))
                + L * (v (Sum.inl 5) + v (Sum.inr 5))) ^ 2
              + (phiY L E G Ay Iz + 1) * L ^ 2
                * (v (Sum.inl 5) - v (Sum.inr 5)) ^ 2)
        + kyPre L E G Az Iy *
            (3 * (2 * (v (Sum.inl 2) - v (Sum.inr 2))
                - L * (v (Sum.inl 4) + v (Sum.inr 4))) ^ 2
              + (phiZ L E G Az Iy + 1) * L ^ 2
                * (v (Sum.inl 4) - v (Sum.inr 4)) ^ 2) := by
  simp [assemble12, stiffness_localNoDefault, localM11, localM12,
    localM21, localM22, kz11, kz12, kz13, kz14, kz22, kz23, kz24, kz33, kz34,
    kz44, ky11, ky12, ky13, ky14, ky22, ky23, ky24, ky33, ky34, ky44,
    Matrix.dotProduct, Matrix.mulVec, Fintype.sum_sum_type,
    Matrix.fromBlocks_apply₁₁, Matrix.fromBlocks_apply₁₂,
    Matrix.fromBlocks_apply₂₁, Matrix.fromBlocks_apply₂₂, Fin.sum_univ_six,
    Matrix.head_fin_const]
  ring

theorem stiffness_local_eq_noDefault (L E G Ax Iz Iy Ay Az J : K) :
    stiffness_local L E G Ax Iz Iy Ay Az J =
      stiffness_localNoDefault L E G Ax Iz Iy
        (if Ay = 0 then Ax else Ay) (if Az = 0 then Ax else Az) J := rfl

theorem assemble12_isSymm (L E G Ax Iz Iy Ay Az J : K) :
    (assemble12 (stiffness_localNoDefault L E G Ax Iz Iy Ay Az J)).IsSymm := by
  show _ᵀ = _
  simp only [assemble12, stiffness_localNoDefault, Matrix.fromBlocks_transpose,
    localM11_transpose, localM22_transpose, localM21_eq_localM12_transpose,
    Matrix.transpose_transpose]

theorem assemble12_posSemidef (L E G Ax Iz Iy Ay Az J : ℝ)
    (hL : 0 ≤ L) (hE : 0 ≤ E) (hG : 0 ≤ G) (hAx : 0 ≤ Ax) (hIz : 0 ≤ Iz)
    (hIy : 0 ≤ Iy) (hAy : 0 ≤ Ay) (hAz : 0 ≤ Az) (hJ : 0 ≤ J) :
    (assemble12 (stiffness_localNoDefault L E G Ax Iz Iy Ay Az J)).PosSemidef := by
  constructor
  · show _ᴴ = _
    rw [Matrix.conjTranspose_eq_transpose_of_trivial]
    exact (assemble12_isSymm L E G Ax Iz Iy Ay Az J).eq
  · intro v
    have hsv : star v = v := by
      funext i
      exact star_trivial _
    rw [hsv, assemble12_quadForm]
    have hpy1 : 0 ≤ phiY L E G Ay Iz + 1 := by
      have := phiY_nonneg L E G Ay Iz hE hG hAy hIz
      linarith
    have hpz1 : 0 ≤ phiZ L E G Az Iy + 1 := by
      have := phiZ_nonneg L E G Az Iy hE hG hAz hIy
      linarith
    have h1 : 0 ≤ a L E Ax * (v (Sum.inl 0) - v (Sum.inr 0)) ^ 2 :=
      mul_nonneg (a_nonneg L E Ax hL hE hAx) (sq_nonneg _)
    have h2 : 0 ≤ s L G J * (v (Sum.inl 3) - v (Sum.inr 3)) ^ 2 :=
      mul_nonneg (s_nonneg L G J hL hG hJ) (sq_nonneg _)
    have h3 : 0 ≤ kzPre L E G Ay Iz *
        (3 * (2 * (v (Sum.inl 1) - v (Sum.inr 1))
            + L * (v (Sum.inl 5) + v (Sum.inr 5))) ^ 2
          + (phiY L E G Ay Iz + 1) * L ^ 2
            * (v (Sum.inl 5) - v (Sum.inr 5)) ^ 2) :=
      mul_nonneg (kzPre_nonneg L E G Ay Iz hE hG hAy hIz)
        (add_nonneg (mul_nonneg (by norm_num) (sq_nonneg _))
          (mul_nonneg (mul_nonneg hpy1 (sq_nonneg L)) (sq_nonneg _)))
    have h4 : 0 ≤ kyPre L E G Az Iy *
        (3 * (2 * (v (Sum.inl 2) - v (Sum.inr 2))
            - L * (v (Sum.inl 4) + v (Sum.inr 4))) ^ 2
          + (phiZ L E G Az Iy + 1) * L ^ 2
            * (v (Sum.inl 4) - v (Sum.inr 4)) ^ 2) :=
      mul_nonneg (kyPre_nonneg L E G Az Iy hE hG hAz hIy)
        (add_nonneg (mul_nonneg (by norm_num) (sq_nonneg _))
          (mul_nonneg (mul_nonneg hpz1 (sq_nonneg L)) (sq_nonneg _)))
    linarith

theorem assemble12_congruence (t0 : Matrix (Fin 6) (Fin 6) ℝ) (B : Blocks ℝ) :
    assemble12 { M11 := t0 * B.M11 * t0ᵀ, M12 := t0 * B.M12 * t0ᵀ,
                 M21 := t0 * B.M21 * t0ᵀ, M22 := t0 * B.M22 * t0ᵀ } =
      Matrix.fromBlocks t0 0 0 t0 * assemble12 B *
        (Matrix.fromBlocks t0 0 0 t0)ᵀ := by
  simp [assemble12, Matrix.fromBlocks_transpose, Matrix.fromBlocks_multiply,
    Matrix.mul_assoc]

/-- C1: for every physically valid input (E > 0, G > 0, non-zero direction
vector, and Ax, Iz, Iy, Ay, Az, J all nonnegative), every quadruple of 6x6
blocks (G11, G12, G21, G22) that `stiffness_global` yields assembles, as
[[G11, G12], [G21, G22]] in yield order, into a symmetric and
positive-semidefinite 12x12 matrix.  (The yield itself is conditional:
inputs such as Ax = 0, Ay = 0, Iz ≠ 0 make the defaulted shear area a zero
divisor, the program raises, and `stiffness_global` is `none`.) -/
theorem stiffness_global_symm_posSemidef (x y z E G Ax Iz Iy Ay Az theta J : ℝ)
    (hdir : ¬(x = 0 ∧ y = 0 ∧ z = 0)) (hE : 0 < E) (hG : 0 < G)
    (hAx : 0 ≤ Ax) (hIz : 0 ≤ Iz) (hIy : 0 ≤ Iy) (hAy : 0 ≤ Ay)
    (hAz : 0 ≤ Az) (hJ : 0 ≤ J) :
    ∀ Gb : Blocks ℝ,
      stiffness_global x y z E G Ax Iz Iy Ay Az theta J = some Gb →
        (assemble12 Gb).IsSymm ∧ (assemble12 Gb).PosSemidef := by
  intro Gb hyield
  have hAy2 : 0 ≤ (if Ay = 0 then Ax else Ay) := by
    split
    · exact hAx
    · exact hAy
  have hAz2 : 0 ≤ (if Az = 0 then Ax else Az) := by
    split
    · exact hAx
    · exact hAz
  unfold stiffness_global at hyield
  cases hT : transformMatrix x y z theta with
  | none =>
    rw [hT] at hyield
    exact Option.noConfusion hyield
  | some T0 =>
    rw [hT, Option.some_bind, Option.map_eq_some'] at hyield
    obtain ⟨m, hm, hGb⟩ := hyield
    have hloc := stiffness_localChecked_some_eq hm
    subst hGb
    rw [hloc, assemble12_congruence, stiffness_local_eq_noDefault]
    constructor
    · have hA := (assemble12_isSymm (norm3 x y z) E G Ax Iz Iy
        (if Ay = 0 then Ax else Ay) (if Az = 0 then Ax else Az) J).eq
      show _ᵀ = _
      rw [Matrix.transpose_mul, Matrix.transpose_mul,
        Matrix.transpose_transpose, hA, ← Matrix.mul_assoc]
    · have hps := assemble12_posSemidef (norm3 x y z) E G Ax Iz Iy
        (if Ay = 0 then Ax else Ay) (if Az = 0 then Ax else Az) J
        (Real.sqrt_nonneg _) (le_of_lt hE) (le_of_lt hG) hAx hIz hIy hAy2
        hAz2 hJ
      have hcongr := hps.mul_mul_conjTranspose_same
        (B := Matrix.fromBlocks (blockDiag2 T0) 0 0 (blockDiag2 T0))
      rw [Matrix.conjTranspose_eq_transpose_of_trivial] at hcongr
      exact hcongr

theorem stiffness_global_symm_posSemidef_witness :
    (¬((3 : ℝ) = 0 ∧ (0 : ℝ) = 0 ∧ (0 : ℝ) = 0) ∧ (0 : ℝ) < 2) ∧
      (stiffness_global 3 0 0 2 1 1 1 1 1 1 0 1).isSome = true ∧
      (∀ Gb : Blocks ℝ,
        stiffness_global 3 0 0 2 1 1 1 1 1 1 0 1 = some Gb →
          (assemble12 Gb).IsSymm ∧ (assemble12 Gb).PosSemidef) := by
  refine ⟨⟨by norm_num, by norm_num⟩, ?_,
    stiffness_global_symm_posSemidef 3 0 0 2 1 1 1 1 1 1 0 1 (by norm_num)
      (by norm_num) (by norm_num) (by norm_num) (by norm_num) (by norm_num)
      (by norm_num) (by norm_num) (by norm_num)⟩
  have hn : norm3 3 0 0 ≠ 0 := by
    unfold norm3
    rw [Real.sqrt_ne_zero']
    norm_num
  obtain ⟨T0, hT⟩ : ∃ T0, transformMatrix 3 0 0 0 = some T0 := by
    unfold transformMatrix
    rw [if_neg hn]
    exact ⟨_, rfl⟩
  have hpy : phiY (norm3 3 0 0) 2 1 (if (1 : ℝ) = 0 then (1 : ℝ) else 1) 1
      + 1 ≠ 0 := by
    have := phiY_nonneg (norm3 3 0 0) 2 1 (if (1 : ℝ) = 0 then (1 : ℝ) else 1)
      1 (by norm_num) (by norm_num) (by norm_num) (by norm_num)
    intro hc
    linarith
  have hpz : phiZ (norm3 3 0 0) 2 1 (if (1 : ℝ) = 0 then (1 : ℝ) else 1) 1
      + 1 ≠ 0 := by
    have := phiZ_nonneg (norm3 3 0 0) 2 1 (if (1 : ℝ) = 0 then (1 : ℝ) else 1)
      1 (by norm_num) (by norm_num) (by norm_num) (by norm_num)
    intro hc
    linarith
  have hC := stiffness_localChecked_eq_some (norm3 3 0 0) 2 1 1 1 1 1 1 1
    hn (by norm_num) (by norm_num) (by norm_num) hpy hpz
  unfold stiffness_global
  rw [hT, Option.some_bind, hC]
  rfl

/-- C7: when the direction vector (x, y, z) is the zero vector,
`stiffness_global` signals the invalid-geometry error (modelled as `none`,
per the spec-modelled `transformMatrix`) and yields no matrix. -/
theorem stiffness_global_zero_direction (E G Ax Iz Iy Ay Az theta J : ℝ) :
    stiffness_global 0 0 0 E G Ax Iz Iy Ay Az theta J = none := by
  unfold stiffness_global transformMatrix
  rw [if_pos]
  · rfl
  · unfold norm3
    norm_num

end Line

namespace Sect

/-- C8 (counterexample): for the concrete dictionary
`{'shape': 'X'}` — an unrecognized shape tag — `convert` signals no error at
all: it returns Python's `None` as a normal result. -/
theorem convert_unknown_shape_no_error :
    (convert { shape? := some "X", params := [] }).1 = PyOut.retNone := by
  simp [convert]

/-- C8 (amended): for every input dictionary whose `'shape'` value is not
one of the six dispatch tags `'H'`, `'T'`, `'I'`, `'O'`, `'C'`, `'R'`,
`convert` returns Python's `None` (a normal return, with no error signaled)
rather than a configuration error. -/
theorem convert_unknown_shape_retNone (d : SectionDict) (sh : String)
    (hsh : d.shape? = some sh)
    (hmem : sh ∉ (["H", "T", "I", "O", "C", "R"] : List String)) :
    (convert d).1 = PyOut.retNone := by
  obtain ⟨sh0, ps⟩ := d
  cases sh0 with
  | none => exact absurd hsh (by simp)
  | some sh1 =>
    have hsh1 : sh1 = sh := by simpa using hsh
    subst hsh1
    have n1 : sh1 ≠ "H" := fun hc => hmem (by rw [hc]; simp)
    have n2 : sh1 ≠ "T" := fun hc => hmem (by rw [hc]; simp)
    have n3 : sh1 ≠ "I" := fun hc => hmem (by rw [hc]; simp)
    have n4 : sh1 ≠ "O" := fun hc => hmem (by rw [hc]; simp)
    have n5 : sh1 ≠ "C" := fun hc => hmem (by rw [hc]; simp)
    have n6 : sh1 ≠ "R" := fun hc => hmem (by rw [hc]; simp)
    simp only [convert]
    rw [if_neg n1, if_neg n2, if_neg n3, if_neg n4, if_neg n5, if_neg n6]

theorem convert_unknown_shape_retNone_witness :
    (({ shape? := some "X", params := [("D", (1 : ℝ))] } : SectionDict).shape? =
        some "X" ∧ "X" ∉ (["H", "T", "I", "O", "C", "R"] : List String)) ∧
      (convert { shape? := some "X", params := [("D", (1 : ℝ))] }).1 =
        PyOut.retNone :=
  ⟨⟨rfl, by decide⟩,
    convert_unknown_shape_retNone { shape? := some "X", params := [("D", (1 : ℝ))] }
      "X" rfl (by decide)⟩

/-- C9 (counterexample): `convert` mutates its argument dictionary: with the
concrete argument `{'shape': 'X', 'D': 1}` the dictionary after the call is
not the dictionary before the call (the `'shape'` entry is gone). -/
theorem convert_mutates_argument :
    (convert { shape? := some "X", params := [("D", (1 : ℝ))] }).2 ≠
      { shape? := some "X", params := [("D", (1 : ℝ))] } := by
  intro hc
  have h0 : (convert { shape? := some "X", params := [("D", (1 : ℝ))] }).2.shape? =
      none := rfl
  rw [hc] at h0
  exact Option.noConfusion h0

/-- C9 (amended): the only mutation `convert` performs on its argument
dictionary is `pop('shape')`: after the call the `'shape'` key is gone and
every other key-value pair is unchanged (`properties` passes a fresh
dictionary to `convert`, so its caller's arguments are unaffected). -/
theorem convert_removes_only_shape (d : SectionDict) :
    (convert d).2 = { shape? := none, params := d.params } := by
  obtain ⟨sh0, ps⟩ := d
  cases sh0 <;> rfl

end Sect

end FrameCalculator
